import Mathlib

/-!
# Verification of the zkevm-data-streamer core (shallow embedding)

This file embeds the Go sources of the data-streamer repository
(`datastreamer` package: the server stream in `part_000` and the client in
`streamclient.go`) as executable Lean definitions and proves properties of
them.  Machine integers (`uint8`, `uint32`, `uint64`) are modelled as `Nat`
with explicit reduction modulo `2^8`, `2^32`, `2^64` at the points where Go
truncates; byte slices are `List Nat` with each element a byte value; Go
`error` results are `Option String` (`none` = `nil`).  Network and file
handles (`net.Conn`, `net.Listener`, `FileStream`) are not part of the
embedded state; the bytes a function writes to a connection are returned as
explicit outputs instead.
-/

namespace DataStreamer

/-- Constant block of the server source: stream types, command ids, client
status values and transaction status values. -/
def StSequencer : Nat := 1

def CmdStart : Nat := 1

def CmdStop : Nat := 2

def CmdHeader : Nat := 3

def csStarted : Nat := 1

def csStopped : Nat := 2

def txNone : Nat := 0

def txStarted : Nat := 1

def txCommitting : Nat := 2

/-- `txStream`: transaction status of the server (`status`, `txAfterEntry`). -/
structure TxStream where
  status : Nat
  txAfterEntry : Nat
  deriving Repr, DecidableEq

/-- `clientStream`: per-connection client record.  The Go struct also holds
the `net.Conn` handle, which carries no state relevant to the embedded
logic and is omitted; `status` is the subscription status byte. -/
structure ClientStream where
  status : Nat
  deriving Repr, DecidableEq

/-- `ServerStream`: the server state.  The listener `ln` and the file
handle `fs` are external resources and are omitted from the embedded
state; all remaining fields of the Go struct are present. -/
structure ServerStream where
  port : Nat
  fileName : String
  streamType : Nat
  clients : List (String × ClientStream)
  lastEntry : Nat
  tx : TxStream
  deriving Repr, DecidableEq

/-- `ResultEntry`: the Result packet (`isEntry` is the packet tag byte,
`length` and `errorNum` are `uint32`, `errorStr` a byte slice). -/
structure ResultEntry where
  isEntry : Nat
  length : Nat
  errorNum : Nat
  errorStr : List Nat
  deriving Repr, DecidableEq

/-- Go map read `m[k]` for the `clients` map: the stored record, or the
zero value (`status = 0`) when the key is absent. -/
def clientsGet (m : List (String × ClientStream)) (k : String) : ClientStream :=
  match m.lookup k with
  | some c => c
  | none => { status := 0 }

/-- Go map write `m[k] = v` for the `clients` map. -/
def clientsSet (m : List (String × ClientStream)) (k : String) (v : ClientStream) :
    List (String × ClientStream) :=
  (k, v) :: m.filter (fun p => p.1 ≠ k)

/-- The byte slice `[]byte(s)` of an ASCII string: one byte per character.
All strings the server sends are ASCII, where this agrees with UTF-8. -/
def strBytes (s : String) : List Nat :=
  s.toList.map Char.toNat

/-- Big-endian 4-byte encoding of a `uint32` value
(`binary.BigEndian.AppendUint32`); byte extraction truncates any `Nat`
argument to its low 32 bits. -/
def u32be (n : Nat) : List Nat :=
  [n / 16777216 % 256, n / 65536 % 256, n / 256 % 256, n % 256]

/-- Big-endian read of a 4-byte slice (`binary.BigEndian.Uint32`). -/
def beUint32 : List Nat → Nat
  | [b0, b1, b2, b3] => ((b0 * 256 + b1) * 256 + b2) * 256 + b3
  | _ => 0

/-- `encodeResultEntryToBinary`: tag byte, then `length` and `errorNum`
big-endian, then the error string bytes. -/
def encodeResultEntryToBinary (e : ResultEntry) : List Nat :=
  e.isEntry % 256 :: (u32be e.length ++ u32be e.errorNum ++ e.errorStr)

/-- `DecodeBinaryToResultEntry`: rejects buffers shorter than 10 bytes,
reads the fixed fields, takes the rest as `errorStr`, and checks
`uint32(len(errorStr)) == length-1-4-4` (`uint32` arithmetic, so the
subtraction wraps modulo `2^32`).  Returns the (possibly partial) entry
together with the Go `error`. -/
def DecodeBinaryToResultEntry (b : List Nat) : ResultEntry × Option String :=
  if b.length < 10 then
    ({ isEntry := 0, length := 0, errorNum := 0, errorStr := [] },
      some "invalid binary result entry")
  else
    let e : ResultEntry :=
      { isEntry := b.headD 0
        length := beUint32 (List.take 4 (List.drop 1 b))
        errorNum := beUint32 (List.take 4 (List.drop 5 b))
        errorStr := List.drop 9 b }
    if e.errorStr.length % 4294967296 ≠ (e.length + 4294967296 - 9) % 4294967296 then
      (e, some "error decoding binary result entry")
    else
      (e, none)

/-- `New`: a freshly created server.  The Go function also opens the stream
file via `PrepareStreamFile` (a function of this repository outside the
embedded sources); only its success path is modelled, which is the path the
claims are about.  All struct fields are initialised as in the source:
`streamType = StSequencer`, empty client map, `lastEntry = 0`, transaction
status `txNone` with `txAfterEntry = 0`. -/
def New (port : Nat) (fileName : String) : ServerStream :=
  { port := port
    fileName := fileName
    streamType := StSequencer
    clients := []
    lastEntry := 0
    tx := { status := txNone, txAfterEntry := 0 } }

/-- `StartStreamTx`: sets the transaction status to `txStarted`, snapshots
`lastEntry` into `txAfterEntry`, and returns `nil`; the source performs no
precondition check. -/
def StartStreamTx (s : ServerStream) : ServerStream × Option String :=
  ({ s with tx := { status := txStarted, txAfterEntry := s.lastEntry } }, none)

/-- `AddStreamEntry`: increments `lastEntry` (a `uint64`, hence modulo
`2^64`) and returns the incremented value together with `nil`.  The entry
type and data arguments are accepted and unused, as in the source. -/
def AddStreamEntry (s : ServerStream) (_etype : Nat) (_data : List Nat) :
    ServerStream × Nat × Option String :=
  let s2 := { s with lastEntry := (s.lastEntry + 1) % 18446744073709551616 }
  (s2, s2.lastEntry, none)

/-- `CommitStreamTx`: moves the transaction status to `txCommitting` and
then back to `txNone`, returning `nil`. -/
def CommitStreamTx (s : ServerStream) : ServerStream × Option String :=
  ({ s with tx := { s.tx with status := txNone } }, none)

/-- The output of `sendResultEntry`: the `ResultEntry` it builds, the
binary bytes it writes to the client connection, and its returned Go
`error` (always `nil` in the source — a write failure is only printed). -/
structure SendResult where
  entry : ResultEntry
  bytes : List Nat
  err : Option String
  deriving Repr, DecidableEq

/-- `sendResultEntry`: builds the Result packet for `(errorNum, errorStr)`
with tag `0xff` and `length = len(errorStr) + 1 + 4 + 4` (a `uint32`),
encodes it and writes the bytes to the client's connection; always returns
`nil`. -/
def sendResultEntry (_s : ServerStream) (errorNum : Nat) (errorStr : String)
    (_clientId : String) : SendResult :=
  let byteSlice := strBytes errorStr
  let entry : ResultEntry :=
    { isEntry := 0xff
      length := (byteSlice.length + 1 + 4 + 4) % 4294967296
      errorNum := errorNum
      errorStr := byteSlice }
  let binaryEntry := encodeResultEntryToBinary entry
  { entry := entry, bytes := binaryEntry, err := none }

/-- `processCommand`: reads the client record for `clientId` into the local
variable `client` (a copy of the map entry), dispatches on the command id
setting the Go `err` and updating only the local copy's status, keeps
`errNum` at its initial value `0` (the source declares `var errNum uint32 = 0`
and never reassigns it), sends a Result packet with `errStr` either the
error text or `"OK"`, and returns the value returned by `sendResultEntry`.
The updated server state, the send, and the returned `error` are given
back; the source never writes the local `client` copy back into
`s.clients`. -/
def processCommand (s : ServerStream) (command : Nat) (clientId : String) :
    ServerStream × SendResult × Option String :=
  let client := clientsGet s.clients clientId
  let step : Option String × ClientStream :=
    if command = CmdStart then
      if client.status ≠ csStopped then
        (some "client already started", client)
      else
        (none, { client with status := csStarted })
    else if command = CmdStop then
      if client.status ≠ csStarted then
        (some "client already stopped", client)
      else
        (none, { client with status := csStopped })
    else if command = CmdHeader then
      if client.status ≠ csStopped then
        (some "header command not allowed", client)
      else
        (none, client)
    else
      (some "invalid command", client)
  let errNum : Nat := 0
  let errStr : String :=
    match step.1 with
    | some msg => msg
    | none => "OK"
  let send := sendResultEntry s errNum errStr clientId
  (s, send, send.err)

/-- The command-reading loop of `handleConnection`: each received message is
the pair of the two `uint64` values read from the wire (command id, stream
type).  A stream-type mismatch returns immediately (killing the connection)
before the command is processed; otherwise the command is processed and a
non-`nil` error from `processCommand` kills the connection after the send.
Returns the final server state and the Results sent, in order. -/
def handleMessages (s : ServerStream) (clientId : String) :
    List (Nat × Nat) → ServerStream × List SendResult
  | [] => (s, [])
  | (command, st) :: rest =>
    if st ≠ s.streamType then
      (s, [])
    else
      let res := processCommand s command clientId
      match res.2.2 with
      | some _ => (res.1, [res.2.1])
      | none =>
        let tail := handleMessages res.1 clientId rest
        (tail.1, res.2.1 :: tail.2)

/-- `handleConnection`: registers the connecting client in `s.clients` with
status `csStopped`, then runs the command loop on the messages received
from the wire. -/
def handleConnection (s : ServerStream) (clientId : String)
    (msgs : List (Nat × Nat)) : ServerStream × List SendResult :=
  let s2 := { s with clients := clientsSet s.clients clientId { status := csStopped } }
  handleMessages s2 clientId msgs

/-! ## Wire client (`streamclient.go`) -/

/-- Modelled from the spec: the command-result success code `CmdErrOK`,
compared against `errorNum` by `ExecCommand`, is declared elsewhere in this
repository; the spec fixes its meaning by "`error_num=0` means success". -/
def CmdErrOK : Nat := 0

/-- The result handling of `ExecCommand` (after `getResult` has delivered
the Result packet `r` for the command): when `r.errorNum` differs from
`CmdErrOK` it returns the error built by
`errors.New("result command error")`; otherwise it continues and returns
`nil`. -/
def execCommandOnResult (r : ResultEntry) : Option String :=
  if r.errorNum ≠ CmdErrOK then
    some "result command error"
  else
    none

/-- A live client connection as `writeFullUint64` uses it: its remote
address string and the `error` its `Write` method returns.  A Go
`net.Conn` interface value is `Option Conn`, with `none` for `nil`. -/
structure Conn where
  remoteAddr : String
  writeErr : Option String
  deriving Repr, DecidableEq

/-- The possible outcomes of a Go call: normal return of an `error`
(`ret`), or a runtime panic (`panicked`), as raised by calling a method on
a `nil` interface value. -/
inductive GoOutcome where
  | ret (err : Option String)
  | panicked (msg : String)
  deriving Repr, DecidableEq

/-- `writeFullUint64`: writes the 8-byte big-endian value when the
connection is non-`nil`, otherwise sets `err = errors.New("error nil
connection")`; in the error branch it formats the log message with
`conn.RemoteAddr().String()`, which on a `nil` connection is a method call
on a `nil` interface value and panics before the error can be returned. -/
def writeFullUint64 (_value : Nat) (conn : Option Conn) : GoOutcome :=
  let err : Option String :=
    match conn with
    | some c => c.writeErr
    | none => some "error nil connection"
  match err with
  | some e =>
    match conn with
    | some c =>
      let _ := c.remoteAddr
      GoOutcome.ret (some e)
    | none =>
      GoOutcome.panicked "invalid memory address or nil pointer dereference"
  | none => GoOutcome.ret none

/-- The opening of `ExecCommand` on a client whose connection is `conn`:
the command-range check (`cmd < CmdStart || cmd > CmdHeader` returns
`errors.New("invalid command")`), then the first wire write
`writeFullUint64(uint64(cmd), c.conn)`. -/
def execCommandFirstWrite (cmd : Nat) (conn : Option Conn) : GoOutcome :=
  if cmd < CmdStart ∨ cmd > CmdHeader then
    GoOutcome.ret (some "invalid command")
  else
    writeFullUint64 cmd conn

/-! ## Derived definitions used by the theorems -/

/-- The server state after `n` successive `AddStreamEntry` calls. -/
def addCalls (s : ServerStream) : Nat → ServerStream
  | 0 => s
  | n + 1 => (AddStreamEntry (addCalls s n) 0 []).1

/-- The entry number returned by the `(n+1)`-th `AddStreamEntry` call
(i.e. the call made after `n` earlier calls). -/
def nthAddResult (s : ServerStream) (n : Nat) : Nat :=
  (AddStreamEntry (addCalls s n) 0 []).2.1

end DataStreamer

namespace DataStreamer

/-! ## Helper lemmas -/

/-- `AddStreamEntry` leaves every field but `lastEntry` unchanged and
increments `lastEntry` modulo `2^64`. -/
theorem addStreamEntry_lastEntry (s : ServerStream) (t : Nat) (d : List Nat) :
    (AddStreamEntry s t d).1.lastEntry = (s.lastEntry + 1) % 18446744073709551616 := rfl

/-- After `n` calls from a fresh server, `lastEntry = n % 2^64`. -/
theorem addCalls_lastEntry (p : Nat) (f : String) (n : Nat) :
    (addCalls (New p f) n).lastEntry = n % 18446744073709551616 := by
  induction n with
  | zero => rfl
  | succ n ih =>
    show ((addCalls (New p f) n).lastEntry + 1) % 18446744073709551616 =
      (n + 1) % 18446744073709551616
    rw [ih]
    omega

/-- `processCommand` returns the server state unchanged: the client record
is read into a local copy and the map is never written. -/
theorem processCommand_state (s : ServerStream) (c : Nat) (cid : String) :
    (processCommand s c cid).1 = s := rfl

/-- The command loop never changes the server state. -/
theorem handleMessages_state (cid : String) :
    ∀ (msgs : List (Nat × Nat)) (s : ServerStream),
      (handleMessages s cid msgs).1 = s := by
  intro msgs
  induction msgs with
  | nil => intro s; rfl
  | cons m rest ih =>
    intro s
    obtain ⟨command, st⟩ := m
    show (if st ≠ s.streamType then (s, [])
      else
        let res := processCommand s command cid
        match res.2.2 with
        | some _ => (res.1, [res.2.1])
        | none =>
          let tail := handleMessages res.1 cid rest
          (tail.1, res.2.1 :: tail.2)).1 = s
    by_cases h : st ≠ s.streamType
    · rw [if_pos h]
    · rw [if_neg h]
      show (handleMessages s cid rest).1 = s
      exact ih s

/-- Reading back the record just stored for a key. -/
theorem clientsGet_clientsSet (m : List (String × ClientStream)) (k : String)
    (v : ClientStream) : clientsGet (clientsSet m k v) k = v := by
  simp [clientsGet, clientsSet, List.lookup]

/-! ## Claim theorems -/

/-- C1 (counterexample): on a freshly created server (`lastEntry = 0`) the
first call to `AddStreamEntry` returns entry number `1`, not `0` as the
claim requires of the 1st call (`n = 0`). -/
theorem C1_counterexample :
    (AddStreamEntry (New 6900 "stream") 1 [0]).2.1 = 1 ∧
      (AddStreamEntry (New 6900 "stream") 1 [0]).2.1 ≠ 0 := by
  exact ⟨rfl, by decide⟩

/-- C1 (amended): starting from a freshly created server, successive calls
to `AddStreamEntry` assign entry numbers `1, 2, 3, …`: for every `n ≥ 0`,
the `(n+1)`-th call returns entry number `(n+1) % 2^64` (so `n + 1`, not
`n`, below the `uint64` wrap). -/
theorem C1_addStreamEntry_numbering (p : Nat) (f : String) (n : Nat) :
    nthAddResult (New p f) n = (n + 1) % 18446744073709551616 := by
  show ((addCalls (New p f) n).lastEntry + 1) % 18446744073709551616 =
    (n + 1) % 18446744073709551616
  rw [addCalls_lastEntry]
  omega

/-- C2 (counterexample): the encoder-shaped Result with empty `errorStr`
(`isEntry = 0xff`, `length = 9 + 0 = 9`) encodes to exactly 9 bytes, and
`DecodeBinaryToResultEntry` rejects that encoding with
`"invalid binary result entry"` (its minimum-size check requires at least
10 bytes) instead of returning the entry. -/
theorem C2_counterexample :
    (encodeResultEntryToBinary
        { isEntry := 255, length := 9, errorNum := 0, errorStr := [] }).length = 9 ∧
      DecodeBinaryToResultEntry
          (encodeResultEntryToBinary
            { isEntry := 255, length := 9, errorNum := 0, errorStr := [] })
        = ({ isEntry := 0, length := 0, errorNum := 0, errorStr := [] },
            some "invalid binary result entry") := ⟨rfl, rfl⟩

/-- C2 (amended): for every Result of the encoder's shape (`isEntry = 0xff`,
`length = 9 + |errorStr|` within `uint32` range) whose `errorStr` is
NON-empty, decoding the encoding succeeds and returns the entry unchanged;
the empty-`errorStr` entry, whose encoding is exactly 9 bytes, is instead
rejected by the decoder's 10-byte minimum. -/
theorem C2_roundtrip_nonempty (num : Nat) (str : List Nat) (hnum : num < 4294967296)
    (hsz : 9 + str.length < 4294967296) (hne : str ≠ []) :
    DecodeBinaryToResultEntry
        (encodeResultEntryToBinary
          { isEntry := 255, length := 9 + str.length, errorNum := num, errorStr := str })
      = ({ isEntry := 255, length := 9 + str.length, errorNum := num, errorStr := str },
          none) := by
  have hpos : 0 < str.length := List.length_pos.mpr hne
  set b := encodeResultEntryToBinary
    { isEntry := 255, length := 9 + str.length, errorNum := num, errorStr := str } with hbdef
  have hb : b = 255 :: ((9 + str.length) / 16777216 % 256) :: ((9 + str.length) / 65536 % 256)
      :: ((9 + str.length) / 256 % 256) :: ((9 + str.length) % 256)
      :: (num / 16777216 % 256) :: (num / 65536 % 256) :: (num / 256 % 256) :: (num % 256)
      :: str := rfl
  have hlenb : b.length = 9 + str.length := by rw [hb]; simp; omega
  have htake1 : beUint32 (List.take 4 (List.drop 1 b)) = 9 + str.length := by
    rw [hb]
    show beUint32 [(9 + str.length) / 16777216 % 256, (9 + str.length) / 65536 % 256,
      (9 + str.length) / 256 % 256, (9 + str.length) % 256] = 9 + str.length
    simp [beUint32]
    omega
  have htake2 : beUint32 (List.take 4 (List.drop 5 b)) = num := by
    rw [hb]
    show beUint32 [num / 16777216 % 256, num / 65536 % 256, num / 256 % 256, num % 256] = num
    simp [beUint32]
    omega
  have hdrop9 : List.drop 9 b = str := by rw [hb]; rfl
  have hhead : b.headD 0 = 255 := by rw [hb]; rfl
  unfold DecodeBinaryToResultEntry
  rw [if_neg (by omega)]
  dsimp only
  rw [htake1, htake2, hdrop9, hhead]
  rw [if_neg (by omega)]

/-- C2 (witness): concrete instance of the amended round trip at the
server's success Result (`errorNum = 0`, `errorStr = "OK"` = `[79, 75]`). -/
theorem C2_roundtrip_nonempty_witness :
    (0 : Nat) < 4294967296 ∧ 9 + ([79, 75] : List Nat).length < 4294967296 ∧
      ([79, 75] : List Nat) ≠ [] ∧
      DecodeBinaryToResultEntry
          (encodeResultEntryToBinary
            { isEntry := 255, length := 9 + ([79, 75] : List Nat).length, errorNum := 0,
              errorStr := [79, 75] })
        = ({ isEntry := 255, length := 9 + ([79, 75] : List Nat).length, errorNum := 0,
              errorStr := [79, 75] }, none) :=
  ⟨by decide, by decide, by decide,
    C2_roundtrip_nonempty 0 [79, 75] (by decide) (by decide) (by decide)⟩

/-- C3 (evaluation at the failing input): a fresh connection (status
`csStopped`) that sends `Stop` with matching stream type is answered with a
Result packet whose `errorNum` is `0` — not nonzero as claimed — while its
`errorStr` is the failure text `"client already stopped"`.  The source
declares `var errNum uint32 = 0` in `processCommand` and never assigns it,
contradicting the `ResultEntry` field documentation `// 0:No error`. -/
theorem C3_stop_while_stopped_errnum_zero :
    ((handleConnection (New 6900 "f") "client" [(CmdStop, StSequencer)]).2.map
        (fun r => (r.entry.errorNum, r.entry.errorStr)))
      = [(0, strBytes "client already stopped")] := rfl

/-- C4 (counterexample): a client of a fresh server that sends the unknown
command id `99` (matching stream type) receives a Result packet
(`errorStr = "invalid command"`, `errorNum = 0`) and is NOT disconnected:
a following `Header` command is still processed and answered `"OK"`. -/
theorem C4_counterexample :
    ((handleConnection (New 6900 "f") "client" [(99, StSequencer), (CmdHeader, StSequencer)]).2.map
        (fun r => (r.entry.errorNum, r.entry.errorStr)))
      = [(0, strBytes "invalid command"), (0, strBytes "OK")] := rfl

/-- C4 (amended): on an unknown command id with matching stream type, the
server sends a Result packet with `errorNum = 0` and error text
`"invalid command"` and keeps the connection: the remaining commands are
processed as if the unknown command had succeeded, because
`processCommand` returns the (always-`nil`) result of `sendResultEntry`. -/
theorem C4_unknown_command_result_no_disconnect (s : ServerStream) (cid : String)
    (c st : Nat) (rest : List (Nat × Nat)) (hst : st = s.streamType)
    (h1 : c ≠ CmdStart) (h2 : c ≠ CmdStop) (h3 : c ≠ CmdHeader) :
    handleMessages s cid ((c, st) :: rest) =
      ((handleMessages s cid rest).1,
        sendResultEntry s 0 "invalid command" cid :: (handleMessages s cid rest).2) := by
  subst hst
  show (if s.streamType ≠ s.streamType then (s, [])
    else
      let res := processCommand s c cid
      match res.2.2 with
      | some _ => (res.1, [res.2.1])
      | none =>
        let tail := handleMessages res.1 cid rest
        (tail.1, res.2.1 :: tail.2)) = _
  rw [if_neg (by simp)]
  show ((handleMessages s cid rest).1,
      (processCommand s c cid).2.1 :: (handleMessages s cid rest).2) = _
  have hsend : (processCommand s c cid).2.1 = sendResultEntry s 0 "invalid command" cid := by
    simp only [processCommand, if_neg h1, if_neg h2, if_neg h3]
  rw [hsend]

/-- C4 (witness): concrete instance — unknown command id `99` on a fresh
server, matching stream type, no further messages. -/
theorem C4_unknown_command_result_no_disconnect_witness :
    (1 : Nat) = (New 6900 "f").streamType ∧ (99 : Nat) ≠ CmdStart ∧ (99 : Nat) ≠ CmdStop ∧
      (99 : Nat) ≠ CmdHeader ∧
      handleMessages (New 6900 "f") "client" [(99, 1)] =
        ((handleMessages (New 6900 "f") "client" []).1,
          sendResultEntry (New 6900 "f") 0 "invalid command" "client" ::
            (handleMessages (New 6900 "f") "client" []).2) :=
  ⟨by decide, by decide, by decide, by decide,
    C4_unknown_command_result_no_disconnect (New 6900 "f") "client" 99 1 []
      (by decide) (by decide) (by decide) (by decide)⟩

/-- A server with one registered connection `"client"` whose stored status
is `csStopped`, as `handleConnection` creates it. -/
def serverWithClient : ServerStream :=
  { New 6900 "f" with clients := [("client", { status := csStopped })] }

/-- A server state in the middle of a transaction: status `txStarted`,
snapshot `txAfterEntry = 5`, and `lastEntry` meanwhile advanced to `7`. -/
def serverMidTx : ServerStream :=
  { New 6900 "f" with
    tx := { status := txStarted, txAfterEntry := 5 }
    lastEntry := 7 }

/-- C5 (counterexample): with a transaction already in progress
(`tx.status = txStarted`, snapshot `txAfterEntry = 5`, `lastEntry = 7`),
`StartStreamTx` returns `nil` instead of a `BadState` error and overwrites
the snapshot (`txAfterEntry` becomes `7 ≠ 5`). -/
theorem C5_counterexample :
    (StartStreamTx serverMidTx).2 = none ∧
      (StartStreamTx serverMidTx).1.tx.txAfterEntry = 7 ∧
      (StartStreamTx serverMidTx).1.tx.txAfterEntry ≠ 5 := by
  exact ⟨rfl, rfl, by decide⟩

/-- C5 (amended): `StartStreamTx` performs no precondition check: in every
state — also mid-transaction — it succeeds (returns `nil`), sets the
transaction status to `txStarted` and overwrites the snapshot
`txAfterEntry` with the current `lastEntry`. -/
theorem C5_startStreamTx_always_overwrites (s : ServerStream) :
    StartStreamTx s = ({ s with tx := { status := txStarted, txAfterEntry := s.lastEntry } },
      none) := rfl

/-- C6 (counterexample): two successive `Start` commands on one fresh
connection are BOTH accepted: each is answered with the success Result
(`errorNum = 0`, `errorStr = "OK"`); the second is not answered with a
failure Result as claimed. -/
theorem C6_counterexample :
    ((handleConnection (New 6900 "f") "client"
          [(CmdStart, StSequencer), (CmdStart, StSequencer)]).2.map
        (fun r => (r.entry.errorNum, r.entry.errorStr)))
      = [(0, strBytes "OK"), (0, strBytes "OK")] := rfl

/-- C6 (amended): `processCommand` only guards on the stored status, and
the status update `client.status = csStarted` is made on a local copy that
is never written back to `s.clients`; hence whenever the stored status for
a connection is `csStopped`, two successive `Start` commands are both
accepted and both answered with the success Result `"OK"` (`errorNum = 0`),
and the server state is unchanged. -/
theorem C6_second_start_also_accepted (s : ServerStream) (cid : String)
    (rest : List (Nat × Nat))
    (h : clientsGet s.clients cid = { status := csStopped }) :
    handleMessages s cid
        ((CmdStart, s.streamType) :: (CmdStart, s.streamType) :: rest) =
      ((handleMessages s cid rest).1,
        sendResultEntry s 0 "OK" cid :: sendResultEntry s 0 "OK" cid ::
          (handleMessages s cid rest).2) := by
  have hone : ∀ r : List (Nat × Nat),
      handleMessages s cid ((CmdStart, s.streamType) :: r) =
        ((handleMessages s cid r).1,
          sendResultEntry s 0 "OK" cid :: (handleMessages s cid r).2) := by
    intro r
    show (if s.streamType ≠ s.streamType then (s, [])
      else
        let res := processCommand s CmdStart cid
        match res.2.2 with
        | some _ => (res.1, [res.2.1])
        | none =>
          let tail := handleMessages res.1 cid r
          (tail.1, res.2.1 :: tail.2)) = _
    rw [if_neg (by simp)]
    show ((handleMessages s cid r).1,
        (processCommand s CmdStart cid).2.1 :: (handleMessages s cid r).2) = _
    have hsend : (processCommand s CmdStart cid).2.1 = sendResultEntry s 0 "OK" cid := by
      simp only [processCommand, if_pos rfl, h]
      norm_num [csStopped]
    rw [hsend]
  rw [hone, hone]

/-- C6 (witness): concrete instance — two `Start` commands from the
registered stopped client of `serverWithClient`. -/
theorem C6_second_start_also_accepted_witness :
    clientsGet serverWithClient.clients "client" = { status := csStopped } ∧
      handleMessages serverWithClient "client"
          ((CmdStart, serverWithClient.streamType) ::
            (CmdStart, serverWithClient.streamType) :: []) =
        ((handleMessages serverWithClient "client" []).1,
          sendResultEntry serverWithClient 0 "OK" "client" ::
            sendResultEntry serverWithClient 0 "OK" "client" ::
              (handleMessages serverWithClient "client" []).2) :=
  ⟨by decide,
    C6_second_start_also_accepted serverWithClient "client" [] (by decide)⟩

/-- C7: a received command whose stream-type field differs from the
server's configured stream type kills the connection at once: the command
is not processed (the state is unchanged), no Result is sent for it, and
nothing further is read from the connection. -/
theorem C7_stream_type_mismatch_disconnects (s : ServerStream) (cid : String)
    (c st : Nat) (rest : List (Nat × Nat)) (hst : st ≠ s.streamType) :
    handleMessages s cid ((c, st) :: rest) = (s, []) := by
  show (if st ≠ s.streamType then (s, [])
    else
      let res := processCommand s c cid
      match res.2.2 with
      | some _ => (res.1, [res.2.1])
      | none =>
        let tail := handleMessages res.1 cid rest
        (tail.1, res.2.1 :: tail.2)) = (s, [])
  rw [if_pos hst]

/-- C7 (witness): concrete instance — stream type `2` against a server
configured with stream type `1`. -/
theorem C7_stream_type_mismatch_disconnects_witness :
    (2 : Nat) ≠ (New 6900 "f").streamType ∧
      handleMessages (New 6900 "f") "client" [(CmdStart, 2), (CmdHeader, 1)] =
        (New 6900 "f", []) :=
  ⟨by decide,
    C7_stream_type_mismatch_disconnects (New 6900 "f") "client" CmdStart 2
      [(CmdHeader, 1)] (by decide)⟩

/-- C9: the client-table invariant.  `handleConnection` stores the record
`{status := csStopped}` for the connection, and no command ever writes the
map again: after any sequence of received messages the map equals exactly
the map as registered, and the stored status for the connection is still
`csStopped`. -/
theorem C9_client_status_stays_stopped (s : ServerStream) (cid : String)
    (msgs : List (Nat × Nat)) :
    ((handleConnection s cid msgs).1).clients
        = clientsSet s.clients cid { status := csStopped } ∧
      clientsGet ((handleConnection s cid msgs).1).clients cid
        = { status := csStopped } := by
  have hstate : (handleConnection s cid msgs).1
      = { s with clients := clientsSet s.clients cid { status := csStopped } } := by
    show (handleMessages
        { s with clients := clientsSet s.clients cid { status := csStopped } } cid msgs).1 = _
    exact handleMessages_state cid msgs _
  rw [hstate]
  exact ⟨rfl, clientsGet_clientsSet _ _ _⟩

/-- C10: `ExecCommand` on a client whose connection is still `nil` (before
`Start`) does not return the guarded `"error nil connection"` error for any
valid command id: `writeFullUint64` takes the error branch but formats its
log message with `conn.RemoteAddr()` on the `nil` connection, so the call
panics before returning. -/
theorem C10_nil_conn_write_panics (cmd : Nat) (h1 : CmdStart ≤ cmd)
    (h2 : cmd ≤ CmdHeader) :
    execCommandFirstWrite cmd none
        = GoOutcome.panicked "invalid memory address or nil pointer dereference" ∧
      execCommandFirstWrite cmd none ≠ GoOutcome.ret (some "error nil connection") := by
  have hvalid : ¬ (cmd < CmdStart ∨ cmd > CmdHeader) := by omega
  constructor
  · show (if cmd < CmdStart ∨ cmd > CmdHeader then GoOutcome.ret (some "invalid command")
      else writeFullUint64 cmd none) = _
    rw [if_neg hvalid]
    rfl
  · show (if cmd < CmdStart ∨ cmd > CmdHeader then GoOutcome.ret (some "invalid command")
      else writeFullUint64 cmd none) ≠ _
    rw [if_neg hvalid]
    exact fun hcontra => GoOutcome.noConfusion hcontra

/-- C8 (counterexample): a Result with `errorNum = 1` and error text
`"client already started"` makes `ExecCommand` return the failure
`errors.New("result command error")`: a fixed message that is not the
server's `errorStr`; a Result with a different `errorStr` yields the very
same failure. -/
theorem C8_counterexample :
    execCommandOnResult
        { isEntry := 255, length := 31, errorNum := 1,
          errorStr := strBytes "client already started" }
        = some "result command error" ∧
      execCommandOnResult
          { isEntry := 255, length := 31, errorNum := 1,
            errorStr := strBytes "client already stopped" }
          = some "result command error" ∧
      "result command error" ≠ "client already started" := by
  exact ⟨rfl, rfl, by decide⟩

/-- C8 (amended): whenever the Result received for a command has nonzero
`errorNum`, `ExecCommand` fails with the fixed error message
`"result command error"`; the server's `errorStr` is only logged, never
carried in the returned failure. -/
theorem C8_nonzero_result_fixed_error (r : ResultEntry) (h : r.errorNum ≠ 0) :
    execCommandOnResult r = some "result command error" := by
  show (if r.errorNum ≠ CmdErrOK then some "result command error" else none)
    = some "result command error"
  simp [CmdErrOK, h]

/-- C8 (witness): concrete instance of the amended claim. -/
theorem C8_nonzero_result_fixed_error_witness :
    ({ isEntry := 255, length := 31, errorNum := 1,
        errorStr := strBytes "client already started" } : ResultEntry).errorNum ≠ 0 ∧
      execCommandOnResult
          { isEntry := 255, length := 31, errorNum := 1,
            errorStr := strBytes "client already started" }
        = some "result command error" :=
  ⟨by decide,
    C8_nonzero_result_fixed_error
      { isEntry := 255, length := 31, errorNum := 1,
        errorStr := strBytes "client already started" } (by decide)⟩

/-- C10 (witness): concrete instance at the `Start` command id. -/
theorem C10_nil_conn_write_panics_witness :
    CmdStart ≤ CmdStart ∧ CmdStart ≤ CmdHeader ∧
      (execCommandFirstWrite CmdStart none
          = GoOutcome.panicked "invalid memory address or nil pointer dereference" ∧
        execCommandFirstWrite CmdStart none
          ≠ GoOutcome.ret (some "error nil connection")) :=
  ⟨by decide, by decide, C10_nil_conn_write_panics CmdStart (by decide) (by decide)⟩

end DataStreamer
